import Mathlib

/-!
Verification of the scheduling core of bookingbot-ng.

Shallow embedding of `src/core/scheduling/services.py`, `models.py` and
`utils.py`.  Conventions of the embedding:

* Instants (`datetime`, stored in UTC) are integers counting minutes from an
  abstract epoch whose day 0 is a Monday; so `d.date()` is `t / 1440`
  (floor division, as in Python), `d.time()` is `t % 1440`, and
  `date.weekday()` is `day % 7` (0 = Monday, as in Python).
* `timedelta(hours=h)` is `h * 60` minutes, `timedelta(days=d)` is `d * 1440`,
  `timedelta(weeks=w)` is `w * 7` days.
* Database rows are Lean structures; the mutable appointment table is a
  `List Appointment` inside `SchedDb`.  Row ids (`uuid4` in the source) are
  naturals drawn from a fresh counter `next_id`.
* Exceptions are the constructors of `SchedErr`, one per exception class of
  `exceptions.py` that the scheduling services touch.  The services raise the
  base class `SchedulingError` directly in several places; that is the
  constructor `scheduling_error`.  `InvalidAppointmentStatusError`
  (code INVALID_STATUS_TRANSITION) exists in `exceptions.py` but is never
  raised by `services.py`; it is the constructor `invalid_appointment_status`.
* The Nigerian-holiday table (`utils.get_nigerian_holidays`, backed by the
  external `holidays` package) is pure data from outside the repository; it
  enters the embedding as the environment field `holidays : Int → Bool`
  (a predicate on day numbers).  Likewise `date.replace(year=year+n)` used by
  yearly recurrence needs calendar structure the day-number model does not
  carry, so it is the abstract environment field `year_add`.
* While-loops whose progress depends on the input (`generate_time_slots`,
  the recurrence loop) are embedded with a fuel parameter, `none` meaning the
  loop did not finish within the given fuel; the day-slot loop of
  `_generate_day_slots` always advances by 15 minutes, so it gets a
  by-construction sufficient gas bound and a totality lemma.
-/

/-- Embedding of `AppointmentStatus` (models.py lines 20-29). -/
inductive AppointmentStatus
  | pending
  | confirmed
  | checked_in
  | in_progress
  | completed
  | cancelled
  | no_show
  | rescheduled
deriving DecidableEq, Repr

/-- Embedding of `RecurrenceType` (models.py lines 32-38). -/
inductive RecurrenceType
  | none
  | daily
  | weekly
  | monthly
  | yearly
deriving DecidableEq, Repr

/-- Exception classes of `exceptions.py` reachable from the scheduling
services.  `scheduling_error` is the base class `SchedulingError`, which
`services.py` raises directly for not-found and illegal-lifecycle cases;
`invalid_appointment_status` is `InvalidAppointmentStatusError`
(code INVALID_STATUS_TRANSITION, exceptions.py lines 172-189). -/
inductive SchedErr
  | scheduling_error
  | appointment_conflict
  | service_not_available
  | staff_not_available
  | invalid_booking_time
  | booking_limit_exceeded
  | invalid_appointment_status
deriving DecidableEq, Repr

/-- Embedding of `ServiceDefinition` (models.py lines 84-137), restricted to
the columns the scheduling services read. -/
structure Service where
  id : Nat
  tenant_id : Nat
  duration_minutes : Int
  buffer_before_minutes : Int
  buffer_after_minutes : Int
  min_advance_booking_hours : Int
  max_advance_booking_days : Int
  is_active : Bool
deriving DecidableEq, Repr

/-- Embedding of `BusinessHours` (models.py lines 49-81), restricted to the
columns the scheduling services read.  Times of day are minutes after
midnight; `none` is SQL NULL. -/
structure BusinessHours where
  day_of_week : Int
  is_open : Bool
  open_time : Option Int
  close_time : Option Int
  break_start : Option Int
  break_end : Option Int
deriving DecidableEq, Repr

/-- Embedding of `Appointment` (models.py lines 140-220), restricted to the
columns the scheduling services read and write. -/
structure Appointment where
  id : Nat
  tenant_id : Nat
  service_id : Nat
  start_time : Int
  end_time : Int
  assigned_staff_id : Option Nat
  status : AppointmentStatus
deriving DecidableEq, Repr

/-- The database state seen by `SchedulingService`: the three tables it
queries plus a fresh-id counter standing in for `uuid4`. -/
structure SchedDb where
  appointments : List Appointment
  services : List Service
  business_hours : List BusinessHours
  next_id : Nat
deriving DecidableEq, Repr

/-- Ambient data the services read but the repository does not define:
the clock (`datetime.utcnow()`), the Nigerian holiday table (external
`holidays` package plus fixed dates, utils.py lines 37-57), and calendar
year arithmetic for `date.replace(year=...)` used by yearly recurrence. -/
structure SchedEnv where
  now : Int
  holidays : Int → Bool
  year_add : Int → Int → Int

/-- Statuses `_check_appointment_conflicts` scans for
(services.py lines 555-560).  Note the source lists exactly
PENDING, CONFIRMED, CHECKED_IN, IN_PROGRESS. -/
def is_conflict_status (s : AppointmentStatus) : Bool :=
  match s with
  | .pending | .confirmed | .checked_in | .in_progress => true
  | _ => false

/-- Terminal statuses per the specification glossary: `completed`,
`cancelled`, `no_show`.  Every other status is non-terminal. -/
def is_terminal_status (s : AppointmentStatus) : Bool :=
  match s with
  | .completed | .cancelled | .no_show => true
  | _ => false

/-- Embedding of `SchedulingService._check_appointment_conflicts`
(services.py lines 543-575): same tenant, status in the list above,
half-open overlap `start_time < end AND end_time > start`, optional staff
filter (`if staff_id:`), optional exclusion by id. -/
def check_appointment_conflicts (appts : List Appointment) (tenant_id : Nat)
    (start_time end_time : Int) (staff_id : Option Nat)
    (exclude_appointment_id : Option Nat) : List Appointment :=
  let base := appts.filter (fun a =>
    a.tenant_id == tenant_id && is_conflict_status a.status &&
    (a.start_time < end_time && a.end_time > start_time))
  let with_staff :=
    match staff_id with
    | some sid => base.filter (fun a => a.assigned_staff_id == some sid)
    | Option.none => base
  match exclude_appointment_id with
  | some eid => with_staff.filter (fun a => a.id != eid)
  | Option.none => with_staff

/-- Embedding of `SchedulingService._is_valid_booking_day`
(services.py lines 448-464): reject holidays, then require a business-hours
row for the weekday with `is_open` (a missing row is falsy `None`). -/
def is_valid_booking_day (env : SchedEnv) (business_hours : List BusinessHours)
    (booking_date : Int) : Bool :=
  if env.holidays booking_date then false
  else
    match business_hours.find? (fun bh => bh.day_of_week == booking_date % 7) with
    | some bh => bh.is_open
    | Option.none => false

/-- Embedding of `SchedulingService._validate_booking_time`
(services.py lines 577-614).  Note the service lookup there filters by id
only, not by tenant; the staff argument is accepted and unused, as in the
source. -/
def validate_booking_time (env : SchedEnv) (db : SchedDb) (tenant_id : Nat)
    (service_id : Nat) (start_time : Int) (staff_id : Option Nat) : Bool :=
  match db.services.find? (fun s => s.id == service_id) with
  | Option.none => false
  | some service =>
    if start_time < env.now + service.min_advance_booking_hours * 60 then false
    else if start_time > env.now + service.max_advance_booking_days * 1440 then false
    else is_valid_booking_day env db.business_hours (start_time / 1440)

/-- The read-only prefix of `SchedulingService.create_appointment`
(services.py lines 121-143): booking-time validation, service lookup by id
and tenant, end-time computation from `duration_minutes` alone, and the
conflict re-check, all against the committed state `db`.  Returns the
service row on success.  The source runs this check and the insert as two
separate steps on the session with no lock, no SELECT FOR UPDATE, no
serializable isolation and no uniqueness or exclusion constraint over
(tenant, staff, time window) — models.py constrains only
`booking_reference`. -/
def create_check_phase (env : SchedEnv) (db : SchedDb) (tenant_id service_id : Nat)
    (start_time : Int) (staff_id : Option Nat) : Except SchedErr Service :=
  if !(validate_booking_time env db tenant_id service_id start_time staff_id) then
    .error .invalid_booking_time
  else
    match db.services.find? (fun s => s.id == service_id && s.tenant_id == tenant_id) with
    | Option.none => .error .service_not_available
    | some service =>
      if check_appointment_conflicts db.appointments tenant_id start_time
          (start_time + service.duration_minutes) staff_id Option.none ≠ [] then
        .error .appointment_conflict
      else .ok service

/-- The write suffix of `SchedulingService.create_appointment`
(services.py lines 148-170): build the row with status `pending` and
`end_time = start_time + duration_minutes` and commit it. -/
def create_insert_phase (db : SchedDb) (tenant_id service_id : Nat)
    (start_time : Int) (staff_id : Option Nat) (service : Service) :
    Appointment × SchedDb :=
  let appt : Appointment :=
    { id := db.next_id
      tenant_id := tenant_id
      service_id := service_id
      start_time := start_time
      end_time := start_time + service.duration_minutes
      assigned_staff_id := staff_id
      status := .pending }
  (appt, { db with appointments := db.appointments ++ [appt], next_id := db.next_id + 1 })

/-- Embedding of `SchedulingService.create_appointment`
(services.py lines 108-174): the check phase followed immediately by the
insert phase.  On error nothing is inserted. -/
def create_appointment (env : SchedEnv) (db : SchedDb) (tenant_id service_id : Nat)
    (start_time : Int) (staff_id : Option Nat) :
    Except SchedErr (Appointment × SchedDb) :=
  match create_check_phase env db tenant_id service_id start_time staff_id with
  | .error e => .error e
  | .ok service => .ok (create_insert_phase db tenant_id service_id start_time staff_id service)

/-- Embedding of `SchedulingService.reschedule_appointment`
(services.py lines 176-236): not-found and terminal-status guards raise the
base `SchedulingError`; then the same validation, service lookup (via the
`appointment.service` relationship, by foreign key only), duration-only end
computation and conflict check excluding the appointment itself; on success
the row is mutated in place to the new window with status `rescheduled`.
The lookup of a dangling `service_id` foreign key, which the source would
crash on, is mapped to the base error. -/
def reschedule_appointment (env : SchedEnv) (db : SchedDb) (appointment_id : Nat)
    (new_start_time : Int) : Except SchedErr (Appointment × SchedDb) :=
  match db.appointments.find? (fun a => a.id == appointment_id) with
  | Option.none => .error .scheduling_error
  | some appt =>
    if appt.status = .completed ∨ appt.status = .cancelled then
      .error .scheduling_error
    else if !(validate_booking_time env db appt.tenant_id appt.service_id
        new_start_time appt.assigned_staff_id) then
      .error .invalid_booking_time
    else
      match db.services.find? (fun s => s.id == appt.service_id) with
      | Option.none => .error .scheduling_error
      | some service =>
        if check_appointment_conflicts db.appointments appt.tenant_id new_start_time
            (new_start_time + service.duration_minutes) appt.assigned_staff_id
            (some appt.id) ≠ [] then
          .error .appointment_conflict
        else
          let appt2 := { appt with
            start_time := new_start_time
            end_time := new_start_time + service.duration_minutes
            status := .rescheduled }
          let new_rows := db.appointments.map (fun b => if b.id == appointment_id then appt2 else b)
          .ok (appt2, { db with appointments := new_rows })

/-- Embedding of `SchedulingService.complete_appointment`
(services.py lines 317-342): not-found raises the base `SchedulingError`;
a status other than IN_PROGRESS raises the base `SchedulingError`
("Service must be started first") — not `InvalidAppointmentStatusError`;
otherwise the status becomes `completed`. -/
def complete_appointment (appts : List Appointment) (appointment_id : Nat) :
    Except SchedErr (Appointment × List Appointment) :=
  match appts.find? (fun a => a.id == appointment_id) with
  | Option.none => .error .scheduling_error
  | some appt =>
    if appt.status ≠ .in_progress then .error .scheduling_error
    else
      let appt2 := { appt with status := .completed }
      .ok (appt2, appts.map (fun b => if b.id == appointment_id then appt2 else b))

/-- Embedding of `SchedulingService.mark_no_show`
(services.py lines 344-360): after the not-found guard the status is set to
`no_show` unconditionally — the source contains no status check at all. -/
def mark_no_show (appts : List Appointment) (appointment_id : Nat) :
    Except SchedErr (Appointment × List Appointment) :=
  match appts.find? (fun a => a.id == appointment_id) with
  | Option.none => .error .scheduling_error
  | some appt =>
    let appt2 := { appt with status := .no_show }
    .ok (appt2, appts.map (fun b => if b.id == appointment_id then appt2 else b))

/-- Helper for stating C4: whether an error is the
INVALID_STATUS_TRANSITION class `InvalidAppointmentStatusError`. -/
def is_invalid_status_error (e : SchedErr) : Bool :=
  match e with
  | .invalid_appointment_status => true
  | _ => false

/-- Skip condition of the day-slot loop (services.py lines 499-503): both
break bounds configured and the candidate interval not fully outside the
break window, compared on times of day as the source does with `.time()`. -/
def break_blocks (brk_s brk_e : Option Int) (slot_start slot_end : Int) : Bool :=
  match brk_s, brk_e with
  | some bs, some be => !(slot_start % 1440 ≥ be ∨ slot_end % 1440 ≤ bs)
  | _, _ => false

/-- Loop of `SchedulingService._generate_day_slots`
(services.py lines 494-514) over absolute minutes: while
`current + duration <= close`, skip a slot blocked by the break window,
otherwise emit `(current, current + duration)`; either way advance
`current` by the fixed 15-minute step.  Each pass moves `current` up by 15,
so the loop always terminates; `gas` is a recursion bound shown sufficient
below (`day_slots_go_is_some`), with `none` meaning the bound was hit. -/
def day_slots_go (close duration : Int) (brk_s brk_e : Option Int)
    (gas : Nat) (current : Int) : Option (List (Int × Int)) :=
  match gas with
  | 0 => Option.none
  | gas + 1 =>
    if current + duration ≤ close then
      if break_blocks brk_s brk_e current (current + duration) then
        day_slots_go close duration brk_s brk_e gas (current + 15)
      else
        (day_slots_go close duration brk_s brk_e gas (current + 15)).map
          (fun l => (current, current + duration) :: l)
    else some []

/-- Embedding of `SchedulingService._generate_day_slots`
(services.py lines 476-516): a missing open or close time yields no slots;
otherwise run the loop from `combine(date, open_time)` up to
`combine(date, close_time)` with the slot width `service.duration_minutes`.
The initial gas is sufficient (see `day_slots_go_is_some`), so the
`getD []` default is never taken. -/
def generate_day_slots (date : Int) (business_hours : BusinessHours)
    (service : Service) : List (Int × Int) :=
  match business_hours.open_time, business_hours.close_time with
  | some o, some c =>
    let current := date * 1440 + o
    let close := date * 1440 + c
    (day_slots_go close service.duration_minutes business_hours.break_start
      business_hours.break_end
      ((close - service.duration_minutes - current).toNat + 2) current).getD []
  | _, _ => []

/-- Embedding of `SchedulingService._filter_available_slots`
(services.py lines 518-541): keep the slots whose window has no conflicting
appointment. -/
def filter_available_slots (db : SchedDb) (slots : List (Int × Int))
    (tenant_id : Nat) (staff_id : Option Nat) : List (Int × Int) :=
  slots.filter (fun slot =>
    check_appointment_conflicts db.appointments tenant_id slot.1 slot.2
      staff_id Option.none = [])

/-- Loop of `utils.generate_time_slots` (utils.py lines 99-113) over
day-relative minutes (`datetime.combine(date.today(), t)` with a common
day): while `current + duration <= end`, a slot meeting the break window
moves `current` up by 15 and is skipped; otherwise `current.time()` is
appended and `current` advances by the slot duration itself.  When the
duration is zero or negative this loop never terminates, hence the fuel
parameter: `none` means the fuel ran out inside the loop. -/
def generate_time_slots_go (end_time duration : Int) (brk_s brk_e : Option Int)
    (fuel : Nat) (current : Int) : Option (List Int) :=
  match fuel with
  | 0 => Option.none
  | fuel + 1 =>
    if current + duration ≤ end_time then
      match brk_s, brk_e with
      | some bs, some be =>
        if ¬ (current + duration ≤ bs ∨ current ≥ be) then
          generate_time_slots_go end_time duration brk_s brk_e fuel (current + 15)
        else
          (generate_time_slots_go end_time duration brk_s brk_e fuel
            (current + duration)).map (fun l => current % 1440 :: l)
      | _, _ =>
        (generate_time_slots_go end_time duration brk_s brk_e fuel
          (current + duration)).map (fun l => current % 1440 :: l)
    else some []

/-- Embedding of `utils.generate_time_slots` (utils.py lines 86-114),
with fuel. -/
def generate_time_slots (start_time end_time : Int) (slot_duration_minutes : Int)
    (brk_s brk_e : Option Int) (fuel : Nat) : Option (List Int) :=
  generate_time_slots_go end_time slot_duration_minutes brk_s brk_e fuel start_time

/-- Date advance of the recurrence loop (services.py lines 676-682).
The source has branches for WEEKLY, MONTHLY (fixed 30-day months) and
YEARLY only; DAILY (and the impossible NONE) fall through with the date
unchanged.  Yearly delegates to the abstract calendar `env.year_add`. -/
def advance_recurrence_date (env : SchedEnv) (recurrence_type : RecurrenceType)
    (interval current_date : Int) : Int :=
  match recurrence_type with
  | .weekly => current_date + 7 * interval
  | .monthly => current_date + 30 * interval
  | .yearly => env.year_add current_date interval
  | _ => current_date

/-- Errors the recurrence loop catches and skips (services.py line 714):
exactly `AppointmentConflictError` and `InvalidBookingTimeError`. -/
def recurrence_caught_error (e : SchedErr) : Bool :=
  match e with
  | .appointment_conflict | .invalid_booking_time => true
  | _ => false

/-- Loop of `RecurringAppointmentService.create_recurring_appointments`
(services.py lines 675-716): while `current_date < end_date` and
`appointment_count < max_appointments`, advance the date, rebuild the start
instant from the parent start time of day, and call `create_appointment`;
a caught error (`continue`) skips the occurrence, any other error
propagates and aborts the batch, success appends the occurrence.  The fuel
bounds loop iterations; `none` means the fuel ran out while the loop was
still running (the recurrence-descriptor fields written onto the child row
after creation are not modelled — no claim reads them). -/
def create_recurring_go (env : SchedEnv) (parent : Appointment)
    (recurrence_type : RecurrenceType) (interval end_date max_appointments : Int)
    (fuel : Nat) (db : SchedDb) (current_date : Int) (count : Int)
    (acc : List Appointment) : Option (Except SchedErr (List Appointment)) :=
  match fuel with
  | 0 => Option.none
  | fuel + 1 =>
    if current_date < end_date ∧ count < max_appointments then
      let next_date := advance_recurrence_date env recurrence_type interval current_date
      let next_start := next_date * 1440 + parent.start_time % 1440
      match create_appointment env db parent.tenant_id parent.service_id next_start
          parent.assigned_staff_id with
      | .error e =>
        if recurrence_caught_error e then
          create_recurring_go env parent recurrence_type interval end_date
            max_appointments fuel db next_date count acc
        else some (.error e)
      | .ok (appt, db2) =>
        create_recurring_go env parent recurrence_type interval end_date
          max_appointments fuel db2 next_date (count + 1) (acc ++ [appt])
    else some (.ok acc)

/-- Embedding of `RecurringAppointmentService.create_recurring_appointments`
(services.py lines 658-719): NONE returns the parent alone; otherwise the
loop starts from the parent start date with one appointment (the parent)
counted and accumulated. -/
def create_recurring_appointments (env : SchedEnv) (fuel : Nat) (db : SchedDb)
    (parent : Appointment) (recurrence_type : RecurrenceType)
    (interval end_date max_appointments : Int) :
    Option (Except SchedErr (List Appointment)) :=
  if recurrence_type = .none then some (.ok [parent])
  else
    create_recurring_go env parent recurrence_type interval end_date
      max_appointments fuel db (parent.start_time / 1440) 1 [parent]

/-- Pairwise double-booking test for the specification invariant of C1:
two rows double-book when they share the tenant, are both non-terminal,
share an assigned staff member, and their half-open windows overlap. -/
def double_booked (a b : Appointment) : Bool :=
  a.tenant_id == b.tenant_id &&
  !(is_terminal_status a.status) && !(is_terminal_status b.status) &&
  a.assigned_staff_id.isSome && a.assigned_staff_id == b.assigned_staff_id &&
  (a.start_time < b.end_time && a.end_time > b.start_time)

/-- The no-double-booking invariant over the appointment table: no pair of
distinct rows double-books. -/
def no_double_booking : List Appointment → Bool
  | [] => true
  | a :: rest => rest.all (fun b => !(double_booked a b)) && no_double_booking rest

/-- A tenant open every weekday of the week, midnight to midnight, with no
break windows. -/
def all_open_hours : List BusinessHours :=
  [{ day_of_week := 0, is_open := true, open_time := some 0, close_time := some 1440,
     break_start := Option.none, break_end := Option.none },
   { day_of_week := 1, is_open := true, open_time := some 0, close_time := some 1440,
     break_start := Option.none, break_end := Option.none },
   { day_of_week := 2, is_open := true, open_time := some 0, close_time := some 1440,
     break_start := Option.none, break_end := Option.none },
   { day_of_week := 3, is_open := true, open_time := some 0, close_time := some 1440,
     break_start := Option.none, break_end := Option.none },
   { day_of_week := 4, is_open := true, open_time := some 0, close_time := some 1440,
     break_start := Option.none, break_end := Option.none },
   { day_of_week := 5, is_open := true, open_time := some 0, close_time := some 1440,
     break_start := Option.none, break_end := Option.none },
   { day_of_week := 6, is_open := true, open_time := some 0, close_time := some 1440,
     break_start := Option.none, break_end := Option.none }]

/-- An environment with clock at 0, no holidays and identity year
arithmetic. -/
def quiet_env : SchedEnv :=
  { now := 0, holidays := fun _ => false, year_add := fun d _ => d }

/-- A 30-minute service of tenant 1 with no buffers and a wide-open advance
window. -/
def c1_service : Service :=
  { id := 1, tenant_id := 1, duration_minutes := 30, buffer_before_minutes := 0,
    buffer_after_minutes := 0, min_advance_booking_hours := 0,
    max_advance_booking_days := 30, is_active := true }

/-- Empty appointment table for the C1 race. -/
def c1_db : SchedDb :=
  { appointments := [], services := [c1_service], business_hours := all_open_hours,
    next_id := 0 }

/-- State after the first of the two racing inserts commits. -/
def c1_db_after_first : SchedDb :=
  (create_insert_phase c1_db 1 1 600 (some 1) c1_service).2

/-- State after both racing inserts commit. -/
def c1_db_after_both : SchedDb :=
  (create_insert_phase c1_db_after_first 1 1 600 (some 1) c1_service).2

/-- An appointment in status `rescheduled` occupying minutes 600-630 of day
0 for staff 1 of tenant 1. -/
def c2_rescheduled_appt : Appointment :=
  { id := 10, tenant_id := 1, service_id := 1, start_time := 600, end_time := 630,
    assigned_staff_id := some 1, status := .rescheduled }

/-- The same booking in status `pending`. -/
def c2_pending_appt : Appointment :=
  { id := 11, tenant_id := 1, service_id := 1, start_time := 600, end_time := 630,
    assigned_staff_id := some 1, status := .pending }

/-- A 30-minute service with 10-minute pre and 5-minute post buffers. -/
def c3_service : Service :=
  { id := 1, tenant_id := 1, duration_minutes := 30, buffer_before_minutes := 10,
    buffer_after_minutes := 5, min_advance_booking_hours := 0,
    max_advance_booking_days := 30, is_active := true }

/-- Database for the C3 counterexample. -/
def c3_db : SchedDb :=
  { appointments := [], services := [c3_service], business_hours := all_open_hours,
    next_id := 0 }

/-- The appointment `create_appointment` builds for the C3 counterexample. -/
def c3_created : Appointment :=
  { id := 0, tenant_id := 1, service_id := 1, start_time := 600, end_time := 630,
    assigned_staff_id := Option.none, status := .pending }

/-- Database state after the C3 counterexample creation. -/
def c3_db_after : SchedDb :=
  { appointments := [c3_created], services := [c3_service],
    business_hours := all_open_hours, next_id := 1 }

/-- A 25-minute bufferless service for the C3 witness. -/
def c3w_service : Service :=
  { id := 1, tenant_id := 1, duration_minutes := 25, buffer_before_minutes := 0,
    buffer_after_minutes := 0, min_advance_booking_hours := 0,
    max_advance_booking_days := 30, is_active := true }

/-- Database for the C3 witness. -/
def c3w_db : SchedDb :=
  { appointments := [], services := [c3w_service], business_hours := all_open_hours,
    next_id := 0 }

/-- The appointment created in the C3 witness. -/
def c3w_created : Appointment :=
  { id := 0, tenant_id := 1, service_id := 1, start_time := 600, end_time := 625,
    assigned_staff_id := Option.none, status := .pending }

/-- Database state after the C3 witness creation. -/
def c3w_db_after : SchedDb :=
  { appointments := [c3w_created], services := [c3w_service],
    business_hours := all_open_hours, next_id := 1 }

/-- A pending appointment, never checked in nor started, for the C4
counterexample. -/
def c4_pending_appt : Appointment :=
  { id := 1, tenant_id := 1, service_id := 1, start_time := 600, end_time := 630,
    assigned_staff_id := Option.none, status := .pending }

/-- A confirmed appointment for the C4 witness. -/
def c4w_confirmed_appt : Appointment :=
  { id := 2, tenant_id := 1, service_id := 1, start_time := 700, end_time := 730,
    assigned_staff_id := Option.none, status := .confirmed }

/-- Business hours 08:00-10:00 with a break window 09:00-09:30, for the C5
witness. -/
def c5_bh : BusinessHours :=
  { day_of_week := 0, is_open := true, open_time := some 480, close_time := some 600,
    break_start := some 540, break_end := some 570 }

/-- A 30-minute service for the C5 witness. -/
def c5_service : Service :=
  { id := 1, tenant_id := 1, duration_minutes := 30, buffer_before_minutes := 0,
    buffer_after_minutes := 0, min_advance_booking_hours := 0,
    max_advance_booking_days := 30, is_active := true }

/-- An empty booking state for the C5 witness of the conflict filter. -/
def c5_db : SchedDb :=
  { appointments := [], services := [c5_service], business_hours := all_open_hours,
    next_id := 0 }

/-- A service requiring 24 hours of advance booking, for C6. -/
def c6_service : Service :=
  { id := 1, tenant_id := 1, duration_minutes := 30, buffer_before_minutes := 0,
    buffer_after_minutes := 0, min_advance_booking_hours := 24,
    max_advance_booking_days := 30, is_active := true }

/-- Database for the C6 witness. -/
def c6_db : SchedDb :=
  { appointments := [], services := [c6_service], business_hours := all_open_hours,
    next_id := 0 }

/-- A 30-minute service for the recurrence claims. -/
def c7_service : Service :=
  { id := 1, tenant_id := 1, duration_minutes := 30, buffer_before_minutes := 0,
    buffer_after_minutes := 0, min_advance_booking_hours := 0,
    max_advance_booking_days := 30, is_active := true }

/-- The already-created parent appointment of a daily recurrence: status
`pending`, staff 1, minutes 600-630 of day 0. -/
def c7_parent : Appointment :=
  { id := 0, tenant_id := 1, service_id := 1, start_time := 600, end_time := 630,
    assigned_staff_id := some 1, status := .pending }

/-- State containing the parent appointment, for C7. -/
def c7_db : SchedDb :=
  { appointments := [c7_parent], services := [c7_service],
    business_hours := all_open_hours, next_id := 1 }

/-- Environment for C8 with day 7 a public holiday, so the second weekly
occurrence fails booking-time validation with InvalidBookingTimeError. -/
def c8_env : SchedEnv :=
  { now := 0, holidays := fun d => d == 7, year_add := fun d _ => d }

/-- The service of the C8 weekly series. -/
def c8_service : Service :=
  { id := 1, tenant_id := 1, duration_minutes := 30, buffer_before_minutes := 0,
    buffer_after_minutes := 0, min_advance_booking_hours := 0,
    max_advance_booking_days := 30, is_active := true }

/-- The parent appointment of the C8 weekly series. -/
def c8_parent : Appointment :=
  { id := 0, tenant_id := 1, service_id := 1, start_time := 600, end_time := 630,
    assigned_staff_id := some 1, status := .pending }

/-- State containing the C8 parent appointment. -/
def c8_db : SchedDb :=
  { appointments := [c8_parent], services := [c8_service],
    business_hours := all_open_hours, next_id := 1 }

/-- The occurrence the C8 series creates on day 14. -/
def c8_a14 : Appointment :=
  { id := 1, tenant_id := 1, service_id := 1, start_time := 20760, end_time := 20790,
    assigned_staff_id := some 1, status := .pending }

/-- The occurrence the C8 series creates on day 21. -/
def c8_a21 : Appointment :=
  { id := 2, tenant_id := 1, service_id := 1, start_time := 30840, end_time := 30870,
    assigned_staff_id := some 1, status := .pending }

/-- The occurrence the C8 series creates on day 28. -/
def c8_a28 : Appointment :=
  { id := 3, tenant_id := 1, service_id := 1, start_time := 40920, end_time := 40950,
    assigned_staff_id := some 1, status := .pending }

/-- A service whose row belongs to tenant 2, so `create_appointment` for
tenant 1 passes validation (the validation lookup ignores the tenant) and
then raises `ServiceNotAvailableError`, an error the recurrence loop does
not catch. -/
def c8b_service : Service :=
  { id := 1, tenant_id := 2, duration_minutes := 30, buffer_before_minutes := 0,
    buffer_after_minutes := 0, min_advance_booking_hours := 0,
    max_advance_booking_days := 30, is_active := true }

/-- State for the C8 abort case: the parent belongs to tenant 1 but the
only service row with its id belongs to tenant 2. -/
def c8b_db : SchedDb :=
  { appointments := [c8_parent], services := [c8b_service],
    business_hours := all_open_hours, next_id := 1 }

/-- A completed appointment, for C9. -/
def c9_completed_appt : Appointment :=
  { id := 5, tenant_id := 1, service_id := 1, start_time := 600, end_time := 630,
    assigned_staff_id := Option.none, status := .completed }

/-- The same row after `mark_no_show` overwrites the terminal status. -/
def c9_after : Appointment :=
  { c9_completed_appt with status := .no_show }

/-- Business hours 08:00-17:00 without breaks, for C10. -/
def c10_bh : BusinessHours :=
  { day_of_week := 0, is_open := true, open_time := some 480, close_time := some 1020,
    break_start := Option.none, break_end := Option.none }

/-- A service with zero duration, the C10 input error case. -/
def c10_service : Service :=
  { id := 1, tenant_id := 1, duration_minutes := 0, buffer_before_minutes := 0,
    buffer_after_minutes := 0, min_advance_booking_hours := 0,
    max_advance_booking_days := 30, is_active := true }

/-- C1: the conflict re-check (services.py line 138) and the insert
(lines 168-169) of `create_appointment` are two separate session steps with
no lock, no serializable isolation and no uniqueness or exclusion
constraint over (tenant, staff, time window), so two concurrent calls for
the same slot can interleave as check-check-insert-insert: both checks read
the same committed state and pass, both inserts commit, both callers get a
`pending` appointment, and the resulting table holds two non-terminal
appointments of the same tenant and staff with overlapping half-open
windows — the no-double-booking invariant fails and neither call raises
`AppointmentConflict`. -/
theorem c1_unsynchronized_check_insert_double_books :
    create_check_phase quiet_env c1_db 1 1 600 (some 1) = .ok c1_service ∧
    (create_insert_phase c1_db 1 1 600 (some 1) c1_service).1.status = .pending ∧
    (create_insert_phase c1_db_after_first 1 1 600 (some 1) c1_service).1.status = .pending ∧
    c1_db_after_both.appointments.length = 2 ∧
    no_double_booking c1_db_after_both.appointments = false :=
  ⟨rfl, rfl, rfl, rfl, rfl⟩

/-- C2: the conflict check scans only the statuses PENDING, CONFIRMED,
CHECKED_IN and IN_PROGRESS (services.py lines 555-560); an appointment in
status `rescheduled` — non-terminal per the specification, and exactly what
`reschedule_appointment` leaves behind in the new time window — is not
reported as a conflict even for an identical window, while the same row in
status `pending` is. -/
theorem c2_rescheduled_excluded_from_conflict_check :
    check_appointment_conflicts [c2_rescheduled_appt] 1 600 630 (some 1)
      Option.none = [] ∧
    check_appointment_conflicts [c2_pending_appt] 1 600 630 (some 1)
      Option.none = [c2_pending_appt] ∧
    is_terminal_status .rescheduled = false ∧
    is_conflict_status .rescheduled = false :=
  ⟨rfl, rfl, rfl, rfl⟩

/-- C7: the recurrence loop (services.py lines 675-716) has no date-advance
branch for DAILY, so a daily series keeps the anchor date fixed; every
iteration re-attempts the parent slot, collides with the parent (or fails
validation), is caught and `continue`s with unchanged state — the loop
never terminates, for any amount of fuel. -/
theorem c7_daily_recurrence_never_terminates :
    ∀ fuel : Nat, create_recurring_appointments quiet_env fuel c7_db c7_parent
      .daily 1 10 52 = Option.none := by
  intro fuel
  induction fuel with
  | zero => rfl
  | succ k ih =>
    have h : create_recurring_appointments quiet_env (k + 1) c7_db c7_parent
        .daily 1 10 52 =
        create_recurring_appointments quiet_env k c7_db c7_parent .daily 1 10 52 := rfl
    rw [h, ih]

/-- C8 counterexample: in a weekly series whose second occurrence falls on
a holiday, `create_appointment` fails for that occurrence with
`InvalidBookingTimeError` — not a conflict — yet the batch does not abort:
the error is caught (services.py line 714 catches `AppointmentConflictError`
and `InvalidBookingTimeError` alike), the occurrence is skipped and the
later occurrences are still created. -/
theorem c8_invalid_booking_time_skipped_cex :
    create_recurring_appointments c8_env 10 c8_db c8_parent .weekly 1 22 52 =
      some (.ok [c8_parent, c8_a14, c8_a21, c8_a28]) ∧
    create_appointment c8_env c8_db 1 1 10680 (some 1) =
      .error .invalid_booking_time :=
  ⟨rfl, rfl⟩

/-- C9: `mark_no_show` (services.py lines 344-360) performs no status check
at all; applied to a `completed` — terminal — appointment it succeeds and
overwrites the status with `no_show` instead of raising
`InvalidStatusTransition` and leaving the record unchanged. -/
theorem c9_mark_no_show_overwrites_terminal_status :
    mark_no_show [c9_completed_appt] 5 = .ok (c9_after, [c9_after]) ∧
    is_terminal_status c9_completed_appt.status = true ∧
    c9_after.status = .no_show :=
  ⟨rfl, rfl, rfl⟩

/-- Auxiliary for C10: with a zero slot duration the loop of
`generate_time_slots` appends a slot and advances the cursor by zero, so
its guard never changes and it exhausts any amount of fuel. -/
theorem c10_zero_duration_go_stuck :
    ∀ fuel : Nat, generate_time_slots_go 1020 0 Option.none Option.none fuel 540 =
      Option.none := by
  intro fuel
  induction fuel with
  | zero => rfl
  | succ k ih =>
    have h : generate_time_slots_go 1020 0 Option.none Option.none (k + 1) 540 =
        (generate_time_slots_go 1020 0 Option.none Option.none k 540).map
          (fun l => 540 % 1440 :: l) := rfl
    rw [h, ih]
    rfl

/-- C10: a zero (or negative) slot duration is not rejected as an input
error: `utils.generate_time_slots` (lines 86-114) loops forever on it —
embedded, it exhausts every fuel bound, from 08:00 to 17:00 with
duration 0 — and `_generate_day_slots` (which always steps by 15 minutes)
silently emits degenerate zero-length slots instead of erroring, here 37 of
them starting with (480, 480). -/
theorem c10_zero_duration_not_rejected :
    (∀ fuel : Nat, generate_time_slots 540 1020 0 Option.none Option.none fuel =
      Option.none) ∧
    (generate_day_slots 0 c10_bh c10_service).head? = some (480, 480) ∧
    (generate_day_slots 0 c10_bh c10_service).length = 37 := by
  refine ⟨fun fuel => ?_, rfl, rfl⟩
  exact c10_zero_duration_go_stuck fuel


/-- Totality of the day-slot loop: the cursor climbs by a fixed 15 minutes
each pass, so any gas exceeding the remaining distance is enough — the
`getD []` fuel default in `generate_day_slots` is never taken and the
embedding computes exactly what the source loop computes. -/
theorem day_slots_go_is_some (close duration : Int) (brk_s brk_e : Option Int) :
    ∀ (gas : Nat) (current : Int),
      (close - duration - current).toNat + 1 < gas →
      (day_slots_go close duration brk_s brk_e gas current).isSome = true := by
  intro gas
  induction gas with
  | zero => intro c h; exact absurd h (by omega)
  | succ g ih =>
    intro c h
    rw [day_slots_go]
    split
    next hg =>
      have hsome : (day_slots_go close duration brk_s brk_e g (c + 15)).isSome = true := by
        by_cases hx : 0 ≤ close - duration - (c + 15)
        · exact ih (c + 15) (by omega)
        · obtain ⟨g2, rfl⟩ : ∃ g2, g = g2 + 1 := ⟨g - 1, by omega⟩
          rw [day_slots_go, if_neg (by omega)]
          rfl
      rcases hex : day_slots_go close duration brk_s brk_e g (c + 15) with _ | l
      · rw [hex] at hsome; exact absurd hsome (by simp)
      · split
        · rfl
        · rfl
    next hg => rfl

/-- Invariant of the day-slot loop: every emitted slot starts at or after
the cursor, its start plus the duration stays within the close, its end is
exactly start plus duration, and when both break bounds are configured the
slot lies fully outside the break window under the time-of-day comparison
used by the source. -/
theorem day_slots_go_mem (close duration : Int) (brk_s brk_e : Option Int) :
    ∀ (gas : Nat) (current : Int) (l : List (Int × Int)),
      day_slots_go close duration brk_s brk_e gas current = some l →
      ∀ p ∈ l, current ≤ p.1 ∧ p.1 + duration ≤ close ∧ p.2 = p.1 + duration ∧
        (∀ b1 b2, brk_s = some b1 → brk_e = some b2 →
          (p.1 % 1440 ≥ b2 ∨ p.2 % 1440 ≤ b1)) := by
  intro gas
  induction gas with
  | zero => intro current l h p hp; exact absurd h (by simp [day_slots_go])
  | succ g ih =>
    intro current l h p hp
    rw [day_slots_go] at h
    split at h
    next hg =>
      split at h
      next hskip =>
        have h1 := ih (current + 15) l h p hp
        exact ⟨by omega, h1.2.1, h1.2.2.1, h1.2.2.2⟩
      next hkeep =>
        rcases hrec : day_slots_go close duration brk_s brk_e g (current + 15) with _ | l2
        · rw [hrec] at h; exact absurd h (by simp)
        · rw [hrec] at h
          injection h with h2
          subst h2
          rcases List.mem_cons.mp hp with hp | hp
          · subst hp
            refine ⟨le_refl _, hg, rfl, ?_⟩
            intro b1 b2 hb1 hb2
            subst hb1
            subst hb2
            simp [break_blocks] at hkeep
            rcases le_or_lt b2 (current % 1440) with hc | hc
            · exact Or.inl hc
            · exact Or.inr (hkeep hc)
          · have h1 := ih (current + 15) l2 hrec p hp
            exact ⟨by omega, h1.2.1, h1.2.2.1, h1.2.2.2⟩
    next hg =>
      injection h with h2
      subst h2
      exact absurd hp (by simp)

/-- C5: every slot generated for a day lies within that day's business
hours — `open ≤ slot.start` and `slot.end ≤ close` (so no slot end ever
exceeds the close) — and, when a break window is configured, falls fully
outside it under the time-of-day comparison the source uses; and the
conflict filter of `find_available_slots` only removes slots, so every slot
it returns was generated this way. -/
theorem c5_slots_respect_bounds :
    (∀ (date : Int) (bh : BusinessHours) (service : Service) (o c : Int)
        (p : Int × Int),
      bh.open_time = some o → bh.close_time = some c →
      p ∈ generate_day_slots date bh service →
      date * 1440 + o ≤ p.1 ∧ p.2 ≤ date * 1440 + c ∧
        (∀ b1 b2, bh.break_start = some b1 → bh.break_end = some b2 →
          (p.1 % 1440 ≥ b2 ∨ p.2 % 1440 ≤ b1))) ∧
    (∀ (db : SchedDb) (slots : List (Int × Int)) (tenant_id : Nat)
        (staff_id : Option Nat) (p : Int × Int),
      p ∈ filter_available_slots db slots tenant_id staff_id → p ∈ slots) := by
  constructor
  · intro date bh service o c p ho hc hp
    unfold generate_day_slots at hp
    rw [ho, hc] at hp
    simp only at hp
    rcases hrec : day_slots_go (date * 1440 + c) service.duration_minutes
        bh.break_start bh.break_end
        ((date * 1440 + c - service.duration_minutes - (date * 1440 + o)).toNat + 2)
        (date * 1440 + o) with _ | l
    · rw [hrec] at hp; exact absurd hp (by simp)
    · rw [hrec] at hp
      have h1 := day_slots_go_mem (date * 1440 + c) service.duration_minutes
        bh.break_start bh.break_end _ _ l hrec p hp
      exact ⟨h1.1, by omega, h1.2.2.2⟩
  · intro db slots tenant_id staff_id p hp
    exact (List.mem_filter.mp hp).1

/-- Witness for C5 at a concrete day: hours 08:00-10:00 with break
09:00-09:30 and a 30-minute service generate the slot (570, 600), which
starts after open, ends by close and starts at or after the break end; and
the conflict filter only passes through generated slots. -/
theorem c5_slots_respect_bounds_witness :
    ((0 : Int) * 1440 + 480 ≤ 570 ∧ (600 : Int) ≤ 0 * 1440 + 600 ∧
      ((570 : Int) % 1440 ≥ 570 ∨ (600 : Int) % 1440 ≤ 540)) ∧
    ((480 : Int), (510 : Int)) ∈ [((480 : Int), (510 : Int))] := by
  constructor
  · have h := c5_slots_respect_bounds.1 0 c5_bh c5_service 480 600 (570, 600)
      rfl rfl (by decide)
    exact ⟨h.1, h.2.1, h.2.2 540 570 rfl rfl⟩
  · exact c5_slots_respect_bounds.2 c5_db [(480, 510)] 1 Option.none (480, 510) (by decide)

/-- C4 counterexample: completing a pending appointment fails, but with the
base SchedulingError class (services.py line 332 raises `SchedulingError`,
HTTP code SCHEDULING_ERROR) — not with `InvalidAppointmentStatusError`, the
class carrying code INVALID_STATUS_TRANSITION, which services.py never
raises. -/
theorem c4_complete_error_class_cex :
    complete_appointment [c4_pending_appt] 1 = .error .scheduling_error ∧
    is_invalid_status_error .scheduling_error = false :=
  ⟨rfl, rfl⟩

/-- C4 amended: completing an appointment whose status is not `in_progress`
always fails — with the generic base `SchedulingError`, not
`InvalidStatusTransition` — and, failing before any mutation, returns no
updated state, leaving the record unchanged. -/
theorem c4_complete_fails_with_base_error :
    ∀ (appts : List Appointment) (appointment_id : Nat) (appt : Appointment),
      appts.find? (fun a => a.id == appointment_id) = some appt →
      appt.status ≠ .in_progress →
      complete_appointment appts appointment_id = .error .scheduling_error := by
  intro appts appointment_id appt hf hst
  unfold complete_appointment
  rw [hf]
  simp [hst]

/-- Witness for C4 at a concrete input: a confirmed appointment. -/
theorem c4_complete_fails_with_base_error_witness :
    complete_appointment [c4w_confirmed_appt] 2 = .error .scheduling_error :=
  c4_complete_fails_with_base_error [c4w_confirmed_appt] 2 c4w_confirmed_appt rfl
    (by decide)

/-- C6: a booking whose start violates the advance window of the service —
earlier than now plus `min_advance_booking_hours`, or later than now plus
`max_advance_booking_days` — always makes `_validate_booking_time` return
false, so `create_appointment` raises `InvalidBookingTimeError`
(services.py lines 121-123, 594-603) and inserts nothing. -/
theorem c6_advance_window_rejected :
    ∀ (env : SchedEnv) (db : SchedDb) (tenant_id service_id : Nat)
      (start_time : Int) (staff_id : Option Nat) (service : Service),
      db.services.find? (fun s => s.id == service_id) = some service →
      (start_time < env.now + service.min_advance_booking_hours * 60 ∨
        start_time > env.now + service.max_advance_booking_days * 1440) →
      create_appointment env db tenant_id service_id start_time staff_id =
        .error .invalid_booking_time := by
  intro env db tenant_id service_id start_time staff_id service hf h
  have hv : validate_booking_time env db tenant_id service_id start_time staff_id
      = false := by
    unfold validate_booking_time
    rw [hf]
    rcases h with h | h
    · simp [h]
    · by_cases h1 : start_time < env.now + service.min_advance_booking_hours * 60
      · simp [h1]
      · simp [h1, h]
  unfold create_appointment create_check_phase
  rw [hv]
  rfl

/-- Witness for C6: a 24-hour-minimum-advance service rejects a booking
1000 minutes from now. -/
theorem c6_advance_window_rejected_witness :
    create_appointment quiet_env c6_db 1 1 1000 Option.none =
      .error .invalid_booking_time :=
  c6_advance_window_rejected quiet_env c6_db 1 1 1000 Option.none c6_service rfl
    (Or.inl (by decide))

/-- C3 counterexample: for a 30-minute service with a 10-minute pre buffer
and a 5-minute post buffer, `create_appointment` stores
`end = start + duration_minutes` only (services.py line 135) — the buffers
are never added, so the stored end differs from
`start + duration + buffer_before + buffer_after`. -/
theorem c3_buffers_ignored_cex :
    create_appointment quiet_env c3_db 1 1 600 Option.none =
      .ok (c3_created, c3_db_after) ∧
    c3_service.buffer_before_minutes = 10 ∧
    c3_service.buffer_after_minutes = 5 ∧
    c3_created.end_time = c3_created.start_time + c3_service.duration_minutes ∧
    c3_created.end_time ≠ c3_created.start_time + (c3_service.duration_minutes +
      c3_service.buffer_before_minutes + c3_service.buffer_after_minutes) :=
  ⟨rfl, rfl, rfl, rfl, by decide⟩

/-- C3 amended: every appointment returned by `create_appointment`, and the
row left by a successful `reschedule_appointment`, stores
`end = start + service.duration_minutes` — the pre and post buffers are not
added (services.py lines 135 and 206) — and `end > start` holds whenever
the duration is positive (nothing in the services validates positivity). -/
theorem c3_end_time_is_duration_only :
    (∀ (env : SchedEnv) (db : SchedDb) (tenant_id service_id : Nat)
        (start_time : Int) (staff_id : Option Nat) (service : Service)
        (p : Appointment × SchedDb),
      db.services.find? (fun s => s.id == service_id && s.tenant_id == tenant_id) =
        some service →
      create_appointment env db tenant_id service_id start_time staff_id = .ok p →
      p.1.start_time = start_time ∧
      p.1.end_time = p.1.start_time + service.duration_minutes ∧
      (0 < service.duration_minutes → p.1.start_time < p.1.end_time)) ∧
    (∀ (env : SchedEnv) (db : SchedDb) (appointment_id : Nat)
        (new_start_time : Int) (appt : Appointment) (service : Service)
        (p : Appointment × SchedDb),
      db.appointments.find? (fun a => a.id == appointment_id) = some appt →
      db.services.find? (fun s => s.id == appt.service_id) = some service →
      reschedule_appointment env db appointment_id new_start_time = .ok p →
      p.1.start_time = new_start_time ∧
      p.1.end_time = p.1.start_time + service.duration_minutes ∧
      (0 < service.duration_minutes → p.1.start_time < p.1.end_time)) := by
  constructor
  · intro env db tenant_id service_id start_time staff_id service p hf h
    unfold create_appointment at h
    rcases hc : create_check_phase env db tenant_id service_id start_time staff_id
        with e | s
    · rw [hc] at h; exact absurd h (by simp)
    · rw [hc] at h
      have hs : s = service := by
        unfold create_check_phase at hc
        split at hc
        · exact absurd hc (by simp)
        · rw [hf] at hc
          split at hc
          · exact absurd hc (by simp)
          · rename_i sv heq
            injection heq with heq2
            subst heq2
            split at hc
            · exact absurd hc (by simp)
            · injection hc with hc2
              exact hc2.symm
      rw [hs] at h
      injection h with h2
      subst h2
      refine ⟨rfl, rfl, fun hd => ?_⟩
      have e1 : (create_insert_phase db tenant_id service_id start_time staff_id
          service).1.start_time = start_time := rfl
      have e2 : (create_insert_phase db tenant_id service_id start_time staff_id
          service).1.end_time = start_time + service.duration_minutes := rfl
      rw [e1, e2]
      omega
  · intro env db appointment_id new_start_time appt service p hf hsvc h
    unfold reschedule_appointment at h
    rw [hf] at h
    split at h
    · exact absurd h (by simp)
    · rename_i appt2 heq
      injection heq with heq2
      subst heq2
      split at h
      · exact absurd h (by simp)
      · split at h
        · exact absurd h (by simp)
        · rw [hsvc] at h
          split at h
          · exact absurd h (by simp)
          · rename_i sv heq3
            injection heq3 with heq4
            subst heq4
            split at h
            · exact absurd h (by simp)
            · injection h with h2
              subst h2
              refine ⟨rfl, rfl, fun hd => ?_⟩
              show new_start_time < new_start_time + service.duration_minutes
              omega

/-- Witness for C3: a 25-minute bufferless creation. -/
theorem c3_end_time_is_duration_only_witness :
    c3w_created.start_time = 600 ∧
    c3w_created.end_time = c3w_created.start_time + c3w_service.duration_minutes ∧
    (0 < c3w_service.duration_minutes →
      c3w_created.start_time < c3w_created.end_time) :=
  c3_end_time_is_duration_only.1 quiet_env c3w_db 1 1 600 Option.none c3w_service
    (c3w_created, c3w_db_after) rfl rfl

/-- C8 amended: the recurrence loop catches and skips exactly
`AppointmentConflictError` and `InvalidBookingTimeError` (services.py
line 714) — so a non-conflict invalid-booking-time failure is skipped too,
contrary to the claim — while any error outside those two classes
propagates and aborts the batch: a surfaced error is never of a caught
class, and a tenant-mismatched service row aborts the series with
`ServiceNotAvailableError` on its first occurrence. -/
theorem c8_only_conflict_and_invalid_time_skipped :
    (∀ (env : SchedEnv) (parent : Appointment)
        (recurrence_type : RecurrenceType)
        (interval end_date max_appointments : Int) (fuel : Nat) (db : SchedDb)
        (current_date count : Int) (acc : List Appointment) (e : SchedErr),
      create_recurring_go env parent recurrence_type interval end_date
        max_appointments fuel db current_date count acc = some (.error e) →
      recurrence_caught_error e = false) ∧
    create_recurring_go c8_env c8_parent .weekly 1 22 52 10 c8b_db 0 1 [c8_parent] =
      some (.error .service_not_available) := by
  constructor
  · intro env parent recurrence_type interval end_date max_appointments fuel
    induction fuel with
    | zero =>
      intro db current_date count acc e h
      exact absurd h (by simp [create_recurring_go])
    | succ f ih =>
      intro db current_date count acc e h
      simp only [create_recurring_go] at h
      split at h
      · split at h
        · split at h
          · exact ih _ _ _ _ _ h
          · rename_i hnc
            injection h with h2
            injection h2 with h3
            rw [h3] at hnc
            cases hb : recurrence_caught_error e
            · rfl
            · exact absurd hb hnc
        · exact ih _ _ _ _ _ h
      · exact absurd h (by simp)
  · rfl

/-- Witness for C8: the surfaced abort error of the tenant-mismatch run is
indeed not of a caught class. -/
theorem c8_only_conflict_and_invalid_time_skipped_witness :
    recurrence_caught_error .service_not_available = false :=
  c8_only_conflict_and_invalid_time_skipped.1 c8_env c8_parent .weekly 1 22 52 10
    c8b_db 0 1 [c8_parent] .service_not_available
    c8_only_conflict_and_invalid_time_skipped.2
